import Mathlib

/-!
Shallow embedding of the yuzu Boxcat BCAT backend
(`src/core/hle/service/bcat/backend/boxcat.cpp`).

Machine bytes are `Nat` values, byte buffers are `List Nat`, and the HTTP,
filesystem, zip and frontend collaborators are modelled by explicit oracle
parameters.  Fallible collaborator steps return `Option` or `Except`, and the
observable side effects of the synchronization pipeline (the network fetch,
the staging-file deletion, the error display, the HLE-lock acquisition and
the completion callback) are recorded as an explicit event trace.
-/

set_option autoImplicit false

namespace Boxcat

/-- Closed result taxonomy of one download attempt: the `enum class
DownloadResult` of the source, in declaration order. -/
inductive DownloadResult where
  | Success
  | NoResponse
  | GeneralWebError
  | NoMatchTitleId
  | NoMatchBuildId
  | InvalidContentType
  | GeneralFSError
  | BadClientVersion
deriving DecidableEq

/-- One uppercase hexadecimal digit, as produced by the fmt presentation type
X for a digit value below 16. -/
def hexUpperDigit (d : Nat) : Char :=
  if d < 10 then Char.ofNat (48 + d) else Char.ofNat (55 + d)

/-- One lowercase hexadecimal digit. -/
def hexLowerDigit (d : Nat) : Char :=
  if d < 10 then Char.ofNat (48 + d) else Char.ofNat (87 + d)

/-- Little-endian base-16 digit list of a number.  The fuel bounds the digit
count; 16 digits of fuel are exact for every value below 2 to the 64. -/
def hexDigitsRevFuel : Nat → Nat → List Nat
  | 0, _ => []
  | fuel + 1, n => if n = 0 then [] else n % 16 :: hexDigitsRevFuel fuel (n / 16)

/-- Model of fmt.format with the format spec 016X applied to a u64 value:
uppercase hexadecimal digits, left-padded with zeros to width 16.  The input
is reduced modulo 2 to the 64 because the formatted C++ value has type u64. -/
def fmtHex16 (n : Nat) : String :=
  let m := n % 2 ^ 64
  let ds := if m = 0 then [0] else (hexDigitsRevFuel 16 m).reverse
  let chars := ds.map hexUpperDigit
  String.mk (List.replicate (16 - chars.length) '0' ++ chars)

/-- Model of Common::HexArrayToString: two hex characters per byte, uppercase
when the second argument is true. -/
def hexArrayToString (bytes : List Nat) (upper : Bool) : String :=
  String.mk
    ((bytes.map fun b =>
        if upper then [hexUpperDigit (b % 256 / 16), hexUpperDigit (b % 16)]
        else [hexLowerDigit (b % 256 / 16), hexLowerDigit (b % 16)]).flatten)

/-- The BOXCAT_PATHNAME_DATA template instantiated with the hex title id. -/
def boxcatPathData (title_id : Nat) : String :=
  "/boxcat/titles/" ++ fmtHex16 title_id ++ "/data"

/-- The BOXCAT_PATHNAME_LAUNCHPARAM template instantiated with the hex
title id. -/
def boxcatPathLaunchParam (title_id : Nat) : String :=
  "/boxcat/titles/" ++ fmtHex16 title_id ++ "/launchparam"

/-- The three fixed request headers built at the top of DownloadInternal. -/
def buildHeaders (build_id : Nat) : List (String × String) :=
  [("Boxcat-Client-Version", "1"),
   ("Boxcat-Client-Type", "yuzu"),
   ("Boxcat-Build-Id", fmtHex16 build_id)]

/-- Model of the std find-returns-npos test on strings: true when the needle
occurs as a contiguous substring of the haystack. -/
def containsSubstring (needle : List Char) : List Char → Bool
  | [] => needle.isEmpty
  | c :: rest => needle.isPrefixOf (c :: rest) || containsSubstring needle rest

/-- One HTTP response as observed by DownloadInternal: the status line and
the content-type header (absent when the response has no such header), plus
the body bytes. -/
structure Response where
  status : Int
  contentTypeHeader : Option (List Char)
  body : List Nat
deriving DecidableEq

/-- State and oracle of the staging file used by one DownloadInternal call:
the current contents of the staging path (none when no file exists there)
and the outcomes of the open, resize and write steps that the code performs
on a confirmed 200 response. -/
structure StagingFS where
  staged : Option (List Nat)
  openOk : Bool
  resizeOk : Bool
  writeCount : Nat
deriving DecidableEq

/-- The one GET request issued by DownloadInternal. -/
structure DLRequest where
  path : String
  headers : List (String × String)
deriving DecidableEq

/-- The conditional digest header of DownloadInternal: present exactly when
a file already exists at the staging path, carrying the lowercase hex digest
of that file's bytes. -/
def digestHeader (digestFn : List Nat → List Nat) (staged : Option (List Nat))
    (digest_header_name : String) : List (String × String) :=
  match staged with
  | some bytes => [(digest_header_name, hexArrayToString (digestFn bytes) false)]
  | none => []

/-- Boxcat::Client::DownloadInternal.  The digest function stands for the
mbedtls SHA-256 collaborator of DigestFile; the response is the collaborator
outcome of client->Get.  Returns the classified result, the staging-file
contents afterwards, and the request that was issued. -/
def downloadInternal (digestFn : List Nat → List Nat) (fs : StagingFS)
    (resp : Option Response) (resolved_path : String)
    (digest_header_name : String) (content_type_name : List Char)
    (build_id : Nat) : DownloadResult × Option (List Nat) × DLRequest :=
  let headers := buildHeaders build_id ++ digestHeader digestFn fs.staged digest_header_name
  let req : DLRequest := ⟨resolved_path, headers⟩
  match resp with
  | none => (.NoResponse, fs.staged, req)
  | some r =>
    if r.status = 304 then (.Success, fs.staged, req)
    else if r.status = 301 then (.BadClientVersion, fs.staged, req)
    else if r.status = 404 then (.NoMatchTitleId, fs.staged, req)
    else if r.status = 406 then (.NoMatchBuildId, fs.staged, req)
    else if r.status ≠ 200 then (.GeneralWebError, fs.staged, req)
    else
      match r.contentTypeHeader with
      | none => (.InvalidContentType, fs.staged, req)
      | some ct =>
        if containsSubstring content_type_name ct = false then (.InvalidContentType, fs.staged, req)
        else if fs.openOk = false then (.GeneralFSError, fs.staged, req)
        else if fs.resizeOk = false then (.GeneralFSError, some [], req)
        else if fs.writeCount ≠ r.body.length then
          (.GeneralFSError,
            some (r.body.take fs.writeCount ++ List.replicate (r.body.length - fs.writeCount) 0),
            req)
        else (.Success, some r.body, req)

/-- Boxcat::Client::DownloadDataZip. -/
def downloadDataZip (digestFn : List Nat → List Nat) (fs : StagingFS)
    (resp : Option Response) (title_id build_id : Nat) :
    DownloadResult × Option (List Nat) × DLRequest :=
  downloadInternal digestFn fs resp (boxcatPathData title_id)
    "Boxcat-Data-Digest" "application/zip".toList build_id

/-- Boxcat::Client::DownloadLaunchParam. -/
def downloadLaunchParam (digestFn : List Nat → List Nat) (fs : StagingFS)
    (resp : Option Response) (title_id build_id : Nat) :
    DownloadResult × Option (List Nat) × DLRequest :=
  downloadInternal digestFn fs resp (boxcatPathLaunchParam title_id)
    "Boxcat-LaunchParam-Digest" "application/octet-stream".toList build_id

/-- Specification-side content-type test, from the spec sentence: a 200
response whose content-type header is absent or does not contain the
operation-specific expected substring is invalid. -/
def specContentTypeOk (header : Option (List Char)) (expected : List Char) : Bool :=
  match header with
  | none => false
  | some ct => containsSubstring expected ct

/-- Specification-side file-write test, from the spec sentence: any failure
at file open, resize, or short write is a filesystem error. -/
def specWriteOk (fs : StagingFS) (bodyLen : Nat) : Bool :=
  fs.openOk && fs.resizeOk && (fs.writeCount == bodyLen)

/-- Specification-side classification of one response, written from the
spec's priority-order sentence, to be compared with downloadInternal. -/
def specClassify (resp : Option Response) (expected : List Char)
    (fs : StagingFS) : DownloadResult :=
  match resp with
  | none => .NoResponse
  | some r =>
    if r.status = 304 then .Success
    else if r.status = 301 then .BadClientVersion
    else if r.status = 404 then .NoMatchTitleId
    else if r.status = 406 then .NoMatchBuildId
    else if r.status ≠ 200 then .GeneralWebError
    else if specContentTypeOk r.contentTypeHeader expected = false then .InvalidContentType
    else if specWriteOk fs r.body.length = false then .GeneralFSError
    else .Success

/-- Observable side effects of the synchronization pipeline, in program
order: the one network fetch of the Transfer Client, the staging-file
deletion, the frontend error display, and the HLE-lock-guarded completion
callback. -/
inductive SyncEvent where
  | networkFetch
  | deleteStaging
  | displayError (res : DownloadResult)
  | lockAcquire
  | callback (success : Bool)
  | lockRelease
deriving DecidableEq

/-- True exactly on callback events. -/
def isCallback : SyncEvent → Bool
  | .callback _ => true
  | _ => false

/-- True exactly on network-fetch events. -/
def isFetch : SyncEvent → Bool
  | .networkFetch => true
  | _ => false

/-- HandleDownloadDisplayResult: the six operational results return without
any display; the remaining results show a frontend error. -/
def handleDownloadDisplayResult (res : DownloadResult) : List SyncEvent :=
  if res = .Success ∨ res = .NoResponse ∨ res = .GeneralWebError ∨
      res = .GeneralFSError ∨ res = .NoMatchTitleId ∨ res = .InvalidContentType then
    []
  else
    [.displayError res]

/-- The report step shared by every exit path of SynchronizeInternal:
acquire the HLE lock, invoke the completion callback, release the lock. -/
def report (success : Bool) : List SyncEvent :=
  [.lockAcquire, .callback success, .lockRelease]

/-- Collaborator outcomes observed by one SynchronizeInternal invocation:
the local-override setting, the Transfer Client result, the staged-zip
readback (nonzero size and a full read), the zip extraction, the directory
getter, the full recursive copy, and for the scoped variant the two subtree
lookups and the subtree copy. -/
structure SyncEnv where
  bcat_boxcat_local : Bool
  downloadResult : DownloadResult
  zipReadOk : Bool
  extractOk : Bool
  dirGetterOk : Bool
  copyOk : Bool
  targetSubOk : Bool
  sourceSubOk : Bool
  subCopyOk : Bool
deriving DecidableEq

/-- SynchronizeInternal as a trace of its observable events.  The branch
structure mirrors the source: local-override short circuit, fetch, result
check with conditional staging-file deletion and display, zip readback,
extraction, then the full or scoped copy, each failure reporting through
the failure lambda and the final path reporting success. -/
def synchronizeInternal (env : SyncEnv) (dir_name : Option String) : List SyncEvent :=
  if env.bcat_boxcat_local then report true
  else
    SyncEvent.networkFetch ::
      (if env.downloadResult ≠ .Success then
        (if env.downloadResult = .NoMatchBuildId ∨ env.downloadResult = .NoMatchTitleId then
          [SyncEvent.deleteStaging]
        else []) ++ handleDownloadDisplayResult env.downloadResult ++ report false
      else if env.zipReadOk = false then report false
      else if env.extractOk = false then report false
      else
        match dir_name with
        | none =>
          if env.dirGetterOk = false ∨ env.copyOk = false then report false
          else report true
        | some _ =>
          if env.dirGetterOk = false then report false
          else if env.targetSubOk = false ∨ env.sourceSubOk = false ∨
              env.subCopyOk = false then report false
          else report true)

/-- Collaborator outcomes observed by one Boxcat::GetLaunchParameter call:
the local-override setting, the Transfer Client result, the contents of the
launch-parameter staging file (none when the file cannot be opened), and
whether ReadBytes returns the full size on a non-empty file. -/
structure LaunchEnv where
  bcat_boxcat_local : Bool
  downloadResult : DownloadResult
  binFile : Option (List Nat)
  binReadOk : Bool
deriving DecidableEq

/-- The staging-file readback of GetLaunchParameter: a missing file reads as
size zero, a zero-size file is a failure, and so is a short read (ReadBytes
returning less than the size) of a non-empty file. -/
def readBinFile (binFile : Option (List Nat)) (readOk : Bool) : Option (List Nat) :=
  match binFile with
  | none => none
  | some bytes =>
    if bytes.length = 0 then none
    else if readOk = false then none
    else some bytes

/-- Boxcat::GetLaunchParameter as its returned value plus the trace of its
observable events (no locking is involved on this synchronous path). -/
def getLaunchParameter (env : LaunchEnv) : Option (List Nat) × List SyncEvent :=
  if env.bcat_boxcat_local then (readBinFile env.binFile env.binReadOk, [])
  else if env.downloadResult ≠ .Success then
    (none,
      SyncEvent.networkFetch ::
        ((if env.downloadResult = .NoMatchBuildId ∨ env.downloadResult = .NoMatchTitleId then
            [SyncEvent.deleteStaging]
          else []) ++ handleDownloadDisplayResult env.downloadResult))
  else (readBinFile env.binFile env.binReadOk, [SyncEvent.networkFetch])

/-- Outcome of Boxcat::Clear: either the documented boolean return, or the
undefined behaviour of dereferencing a null directory handle. -/
inductive ClearOutcome where
  | nullDeref
  | ret (success : Bool)
deriving DecidableEq

/-- Boxcat::Clear.  The directory getter outcome is a list of subdirectory
names when it returns a directory and none when it returns null; the delete
oracle gives the outcome of each recursive deletion.  The source
dereferences the getter result with no null check. -/
def clear (bcat_boxcat_local : Bool) (dir : Option (List String))
    (deleteOk : String → Bool) : ClearOutcome :=
  if bcat_boxcat_local then .ret true
  else
    match dir with
    | none => .nullDeref
    | some dirnames => .ret (dirnames.all deleteOk)

/-- The mutable state of a Boxcat backend instance: its single data member
beyond the directory getter is the is_syncing flag. -/
structure BoxcatState where
  is_syncing : Bool
deriving DecidableEq

/-- The one debug log line emitted by Boxcat::SetPassphrase. -/
structure LogLine where
  title_id : Nat
  passphrase_hex : String
deriving DecidableEq

/-- Boxcat::SetPassphrase: logs the arguments and does nothing else. -/
def setPassphrase (s : BoxcatState) (title_id : Nat) (passphrase : List Nat) :
    BoxcatState × LogLine :=
  (s, ⟨title_id, hexArrayToString passphrase true⟩)

/-- A JSON value, the image of a successfully parsed response body. -/
inductive Json where
  | null
  | bool (b : Bool)
  | num (n : Int)
  | str (s : String)
  | arr (elements : List Json)
  | obj (fields : List (String × Json))

/-- Model of the is_null type test. -/
def Json.isNull : Json → Bool
  | .null => true
  | _ => false

/-- Model of the is_array type test. -/
def Json.isArray : Json → Bool
  | .arr _ => true
  | _ => false

/-- Model of the is_string type test. -/
def Json.isString : Json → Bool
  | .str _ => true
  | _ => false

/-- Model of the is_object type test. -/
def Json.isObject : Json → Bool
  | .obj _ => true
  | _ => false

/-- The two ways the unguarded json accesses of GetStatus can go wrong: a
type error (an exception the surrounding catch clause, which only catches
parse errors, does not catch) and the assertion failure that is undefined
behavior in release builds (the const bracket operator on a missing key). -/
inductive JsonError where
  | typeError
  | assertFail
deriving DecidableEq

/-- Model of the mutable json bracket operator as used for reading a key:
on an object it yields the stored value, or null when the key is absent (the
operator inserts a null member); on null it also yields null (the operator
first turns the value into an object); on every other value it raises a
type error, which the surrounding code does not catch. -/
def Json.index (j : Json) (key : String) : Except JsonError Json :=
  match j with
  | .obj fields =>
    match List.lookup key fields with
    | some v => .ok v
    | none => .ok .null
  | .null => .ok .null
  | _ => .error .typeError

/-- Model of get applied at type bool: a type error on any non-boolean. -/
def Json.getBool : Json → Except JsonError Bool
  | .bool b => .ok b
  | _ => .error .typeError

/-- Model of get applied at type string: a type error on any non-string. -/
def Json.getString : Json → Except JsonError String
  | .str s => .ok s
  | _ => .error .typeError

/-- Model of find on an object member, used for the name-presence guard. -/
def Json.objFind (j : Json) (key : String) : Option Json :=
  match j with
  | .obj fields => List.lookup key fields
  | _ => none

/-- Model of the const bracket operator used on the const games-entry copy
inside the games loop: the stored value when the key is present; on a
missing key (or a non-object) the library asserts, which is undefined
behavior with assertions disabled, so nothing is returned. -/
def Json.constIndex (j : Json) (key : String) : Except JsonError Json :=
  match j with
  | .obj fields =>
    match List.lookup key fields with
    | some v => .ok v
    | none => .error .assertFail
  | _ => .error .assertFail

/-- Per-game status block of the events feed. -/
structure EventStatus where
  header : Option String
  footer : Option String
  events : List String
deriving DecidableEq

/-- Closed result taxonomy of Boxcat::GetStatus. -/
inductive StatusResult where
  | Success
  | Offline
  | BadClientVersion
  | ParseError
deriving DecidableEq

/-- Model of std::map insert_or_assign on the games accumulator: a repeated
name overwrites the earlier entry, a new name is added. -/
def insertOrAssign (games : List (String × EventStatus)) (key : String)
    (val : EventStatus) : List (String × EventStatus) :=
  if games.any (fun p => p.1 == key) then
    games.map (fun p => if p.1 == key then (key, val) else p)
  else games ++ [(key, val)]

/-- The guarded header and footer decode of the games loop: a string member
is taken, everything else becomes no value. -/
def guardedOptString : Json → Option String
  | .str s => some s
  | _ => none

/-- The guarded events decode of the games loop: a non-array member
contributes nothing, and non-string entries of an array are skipped. -/
def guardedEvents : Json → List String
  | .arr xs =>
    xs.filterMap fun e =>
      match e with
      | .str s => some s
      | _ => none
  | _ => []

/-- One iteration of the games loop: entries that are not objects or lack a
name member are skipped; reading the header, footer or events member of a
named entry through the const bracket operator asserts when the member is
missing; a non-string name raises an uncaught type error at the map
insertion. -/
def parseGameLoopBody (games : List (String × EventStatus)) (object : Json) :
    Except JsonError (List (String × EventStatus)) :=
  if object.isObject && (object.objFind "name").isSome then
    match object.constIndex "header" with
    | .error e => .error e
    | .ok headerJ =>
      match object.constIndex "footer" with
      | .error e => .error e
      | .ok footerJ =>
        match object.constIndex "events" with
        | .error e => .error e
        | .ok eventsJ =>
          match object.constIndex "name" with
          | .error e => .error e
          | .ok nameJ =>
            match nameJ.getString with
            | .error e => .error e
            | .ok name =>
              .ok (insertOrAssign games name
                ⟨guardedOptString headerJ, guardedOptString footerJ,
                 guardedEvents eventsJ⟩)
  else .ok games

/-- The range-for over the games array, threading the accumulated map and
propagating any type error or assertion failure. -/
def foldGames (games : List (String × EventStatus)) :
    List Json → Except JsonError (List (String × EventStatus))
  | [] => .ok games
  | object :: rest =>
    match parseGameLoopBody games object with
    | .error e => .error e
    | .ok games2 => foldGames games2 rest

/-- Result of one GetStatus call: the StatusResult together with the global
out-parameter (none when the code returned before assigning it) and the
games out-parameter. -/
structure StatusOut where
  result : StatusResult
  global : Option (Option String)
  games : List (String × EventStatus)
deriving DecidableEq

/-- Outcome of GetStatus: a normal return, an uncaught json type error
escaping the function, or the assertion failure / undefined behavior of a
const bracket read of a missing member. -/
inductive GSOutcome where
  | ret (out : StatusOut)
  | typeError
  | assertFail
deriving DecidableEq

/-- One response to the events GET: its status, and the JSON image of its
body (none when the body is not valid JSON, which the parse call reports as
a parse error). -/
structure StatusResp where
  status : Int
  body : Option Json

/-- The try block of GetStatus applied to a successfully parsed body,
propagating the json type errors and assertion failures that its unguarded
accesses can raise. -/
def statusBody (json : Json) : Except JsonError StatusOut :=
  match json.index "online" with
  | .error e => .error e
  | .ok onlineJ =>
    match onlineJ.getBool with
    | .error e => .error e
    | .ok online =>
      if online = false then .ok ⟨.Offline, none, []⟩
      else
        match json.index "global" with
        | .error e => .error e
        | .ok globalJ =>
          match
            (if globalJ.isNull then Except.ok none
             else
               match globalJ.getString with
               | .error e => .error e
               | .ok s => .ok (some s)) with
          | .error e => .error e
          | .ok global =>
            match json.index "games" with
            | .error e => .error e
            | .ok gamesJ =>
              match
                (match gamesJ with
                 | .arr objects => foldGames [] objects
                 | _ => .ok []) with
              | .error e => .error e
              | .ok games => .ok ⟨.Success, some global, games⟩

/-- Boxcat::GetStatus over the response collaborator outcome: no response is
Offline, a 301 is BadClientVersion, a parse failure is ParseError, and
otherwise the try block runs. -/
def getStatus (resp : Option StatusResp) : GSOutcome :=
  match resp with
  | none => .ret ⟨.Offline, none, []⟩
  | some r =>
    if r.status = 301 then .ret ⟨.BadClientVersion, none, []⟩
    else
      match r.body with
      | none => .ret ⟨.ParseError, none, []⟩
      | some json =>
        match statusBody json with
        | .ok out => .ret out
        | .error .typeError => .typeError
        | .error .assertFail => .assertFail

/-- A games entry with a string name and arbitrary header, footer and events
members, used to state the tolerance of the feed decoder. -/
def mkGameEntry (name : String) (header footer events : Json) : Json :=
  Json.obj
    [("name", Json.str name), ("header", header), ("footer", footer), ("events", events)]

/-- A well-formed top level for the events feed: a boolean online member, a
null or string global member, and a games array of entries with string
names. -/
def mkStatusJson (online : Bool) (global : Option String)
    (games : List (String × Json × Json × Json)) : Json :=
  Json.obj
    [("online", Json.bool online),
     ("global", match global with | none => Json.null | some s => Json.str s),
     ("games", Json.arr (games.map fun g => mkGameEntry g.1 g.2.1 g.2.2.1 g.2.2.2))]

/-- Specification-side decode of the games list: each entry keeps its name,
its guarded header, footer and events, inserted in order with overwrite on a
repeated name. -/
def expectedGames (games : List (String × Json × Json × Json)) :
    List (String × EventStatus) :=
  games.foldl
    (fun acc g =>
      insertOrAssign acc g.1
        ⟨guardedOptString g.2.1, guardedOptString g.2.2.1, guardedEvents g.2.2.2⟩)
    []

/-- Hex value of one uppercase hexadecimal character. -/
def hexCharVal (c : Char) : Nat :=
  if 65 ≤ c.toNat then c.toNat - 55 else c.toNat - 48

/-- Character test for uppercase hexadecimal. -/
def isUpperHexChar (c : Char) : Bool :=
  (48 ≤ c.toNat && c.toNat ≤ 57) || (65 ≤ c.toNat && c.toNat ≤ 70)

/-- Numeric value of an uppercase hexadecimal string, most significant digit
first. -/
def decodeHex (s : String) : Nat :=
  s.data.foldl (fun acc c => 16 * acc + hexCharVal c) 0

/-- Value of a little-endian digit list in base 16. -/
def valRev : List Nat → Nat
  | [] => 0
  | d :: ds => d + 16 * valRev ds

theorem filter_isCallback_report (b : Bool) :
    (report b).filter isCallback = [SyncEvent.callback b] := rfl

theorem filter_isCallback_handleDownloadDisplayResult (res : DownloadResult) :
    (handleDownloadDisplayResult res).filter isCallback = [] := by
  unfold handleDownloadDisplayResult
  split <;> rfl

theorem filter_isFetch_handleDownloadDisplayResult (res : DownloadResult) :
    (handleDownloadDisplayResult res).filter isFetch = [] := by
  unfold handleDownloadDisplayResult
  split <;> rfl

theorem deleteStaging_not_mem_handleDownloadDisplayResult (res : DownloadResult) :
    SyncEvent.deleteStaging ∉ handleDownloadDisplayResult res := by
  unfold handleDownloadDisplayResult
  split <;> simp

theorem deleteStaging_not_mem_report (b : Bool) :
    SyncEvent.deleteStaging ∉ report b := by
  simp [report]

theorem synchronizeInternal_shape (env : SyncEnv) (dir_name : Option String) :
    ∃ pre b, synchronizeInternal env dir_name = pre ++ report b ∧
      pre.filter isCallback = [] ∧ (pre.filter isFetch).length ≤ 1 := by
  unfold synchronizeInternal
  split
  · exact ⟨[], true, rfl, rfl, by simp⟩
  · split
    · refine ⟨SyncEvent.networkFetch ::
        ((if env.downloadResult = .NoMatchBuildId ∨ env.downloadResult = .NoMatchTitleId then
            [SyncEvent.deleteStaging] else []) ++
          handleDownloadDisplayResult env.downloadResult), false, by simp, ?_, ?_⟩
      · split <;>
          simp [isCallback, List.filter_append, filter_isCallback_handleDownloadDisplayResult]
      · split <;>
          simp [isFetch, List.filter_append, filter_isFetch_handleDownloadDisplayResult]
    · split
      · exact ⟨[SyncEvent.networkFetch], false, rfl, rfl, by simp [isFetch]⟩
      · split
        · exact ⟨[SyncEvent.networkFetch], false, rfl, rfl, by simp [isFetch]⟩
        · split
          · split
            · exact ⟨[SyncEvent.networkFetch], false, rfl, rfl, by simp [isFetch]⟩
            · exact ⟨[SyncEvent.networkFetch], true, rfl, rfl, by simp [isFetch]⟩
          · split
            · exact ⟨[SyncEvent.networkFetch], false, rfl, rfl, by simp [isFetch]⟩
            · split
              · exact ⟨[SyncEvent.networkFetch], false, rfl, rfl, by simp [isFetch]⟩
              · exact ⟨[SyncEvent.networkFetch], true, rfl, rfl, by simp [isFetch]⟩

/-- C2: every invocation of the synchronization pipeline (SynchronizeInternal,
via Synchronize or SynchronizeDirectory) invokes the completion callback
exactly once, that invocation happens between the HLE lock acquisition and
the lock release, and there is no retry: at most one network fetch occurs. -/
theorem synchronizeInternal_callback_once (env : SyncEnv) (dir_name : Option String) :
    ((synchronizeInternal env dir_name).filter isCallback).length = 1 ∧
    (∃ pre b, synchronizeInternal env dir_name =
        pre ++ [SyncEvent.lockAcquire, SyncEvent.callback b, SyncEvent.lockRelease] ∧
        pre.filter isCallback = []) ∧
    ((synchronizeInternal env dir_name).filter isFetch).length ≤ 1 := by
  obtain ⟨pre, b, hEq, hCb, hF⟩ := synchronizeInternal_shape env dir_name
  refine ⟨?_, ⟨pre, b, by simpa [report] using hEq, hCb⟩, ?_⟩
  · rw [hEq]
    simp [List.filter_append, hCb, report, isCallback]
  · rw [hEq]
    simpa [List.filter_append, report, isFetch, isCallback] using hF

/-- C3: on both fetch paths (archive synchronization and launch-parameter
fetch) the caller of the Transfer Client deletes the staging file exactly
when the download result is NoMatchTitleId or NoMatchBuildId; for
BadClientVersion and every other result no deletion is performed. -/
theorem stagingFile_delete_iff (env : SyncEnv) (dir_name : Option String)
    (lenv : LaunchEnv) :
    (SyncEvent.deleteStaging ∈ synchronizeInternal env dir_name ↔
      env.bcat_boxcat_local = false ∧
        (env.downloadResult = .NoMatchTitleId ∨ env.downloadResult = .NoMatchBuildId)) ∧
    (SyncEvent.deleteStaging ∈ (getLaunchParameter lenv).2 ↔
      lenv.bcat_boxcat_local = false ∧
        (lenv.downloadResult = .NoMatchTitleId ∨ lenv.downloadResult = .NoMatchBuildId)) := by
  constructor
  · unfold synchronizeInternal
    split
    · next h => simp [report, h]
    · next h =>
      rw [Bool.not_eq_true] at h
      simp only [h, true_and, List.mem_cons, reduceCtorEq, false_or]
      split
      · next hres =>
        simp only [List.mem_append,
          deleteStaging_not_mem_handleDownloadDisplayResult env.downloadResult,
          deleteStaging_not_mem_report, or_false]
        split <;> simp_all
        tauto
      · next hres =>
        rw [not_not] at hres
        simp only [hres]
        split
        · simp [report]
        · split
          · simp [report]
          · split
            · split <;> simp [report]
            · split
              · simp [report]
              · split <;> simp [report]
  · unfold getLaunchParameter
    split
    · next h => simp [h]
    · next h =>
      rw [Bool.not_eq_true] at h
      split
      · next hres =>
        simp only [h, true_and, List.mem_cons, reduceCtorEq, false_or, List.mem_append,
          deleteStaging_not_mem_handleDownloadDisplayResult lenv.downloadResult, or_false]
        split <;> simp_all
        tauto
      · next hres =>
        rw [not_not] at hres
        simp [hres]

/-- C5 counterexample: with the local-override flag set and no staged
launch-parameter file, GetLaunchParameter attempts no network call (empty
event trace) yet returns no value, so it does not succeed for every title. -/
theorem getLaunchParameter_local_can_fail :
    (getLaunchParameter ⟨true, DownloadResult.Success, none, true⟩).1 = none ∧
    (getLaunchParameter ⟨true, DownloadResult.Success, none, true⟩).2 = [] :=
  ⟨rfl, rfl⟩

/-- C5 amended: with the local-override flag set, Synchronize reports success
without any network call, Clear is a no-op returning success, and
GetLaunchParameter attempts no network call, returning the staged file bytes
when a non-empty staging file exists and is read back in full, and no value
otherwise (missing file, empty file, or short read). -/
theorem local_override_behavior (res res2 : DownloadResult)
    (zR eR dG cO tS sS sC binReadOk : Bool) (dir_name : Option String)
    (dir : Option (List String)) (deleteOk : String → Bool)
    (binFile : Option (List Nat)) :
    synchronizeInternal ⟨true, res, zR, eR, dG, cO, tS, sS, sC⟩ dir_name =
      [SyncEvent.lockAcquire, SyncEvent.callback true, SyncEvent.lockRelease] ∧
    clear true dir deleteOk = ClearOutcome.ret true ∧
    (getLaunchParameter ⟨true, res2, binFile, binReadOk⟩).2 = [] ∧
    (getLaunchParameter ⟨true, res2, binFile, binReadOk⟩).1 =
      (match binFile with
       | none => none
       | some bytes =>
         if bytes.length = 0 then none
         else if binReadOk = false then none
         else some bytes) :=
  ⟨rfl, rfl, rfl, rfl⟩

/-- C7: HandleDownloadDisplayResult surfaces a user-visible error for exactly
NoMatchBuildId and BadClientVersion, and returns without any display for
Success, NoResponse, GeneralWebError, GeneralFSError, NoMatchTitleId and
InvalidContentType. -/
theorem handleDownloadDisplayResult_visibility (res : DownloadResult) :
    (handleDownloadDisplayResult res = [SyncEvent.displayError res] ↔
      res = .NoMatchBuildId ∨ res = .BadClientVersion) ∧
    (handleDownloadDisplayResult res = [] ↔
      ¬(res = .NoMatchBuildId ∨ res = .BadClientVersion)) := by
  cases res <;> decide

/-- C9: with the override flag unset, a null directory-getter result makes
Clear dereference the null handle; there is no path on which that null
result produces the documented boolean failure return. -/
theorem clear_null_getter_deref (deleteOk : String → Bool) :
    clear false none deleteOk = ClearOutcome.nullDeref := rfl

/-- C10: SetPassphrase leaves the backend state unchanged and only yields a
log line, so every subsequent operation observes exactly the state it would
have observed had SetPassphrase not been called. -/
theorem setPassphrase_no_state_effect (s : BoxcatState) (title_id : Nat)
    (passphrase : List Nat) :
    (setPassphrase s title_id passphrase).1 = s ∧
    ∀ (α : Type) (operation : BoxcatState → α),
      operation (setPassphrase s title_id passphrase).1 = operation s :=
  ⟨rfl, fun _ _ => rfl⟩

theorem downloadInternal_request (digestFn : List Nat → List Nat) (fs : StagingFS)
    (resp : Option Response) (resolved_path digest_header_name : String)
    (content_type_name : List Char) (build_id : Nat) :
    (downloadInternal digestFn fs resp resolved_path digest_header_name
        content_type_name build_id).2.2 =
      ⟨resolved_path,
        buildHeaders build_id ++ digestHeader digestFn fs.staged digest_header_name⟩ := by
  rcases resp with _ | r
  · rfl
  · rcases r with ⟨status, cth, body⟩
    rcases cth with _ | ct <;>
      (unfold downloadInternal; dsimp only; split_ifs <;> rfl)

/-- C1: DownloadInternal (and hence DownloadDataZip and DownloadLaunchParam)
classifies every HTTP response in the spec's priority order, writes nothing
to the staging file on a 304, and on full success writes exactly the
response body to the staging file. -/
theorem downloadInternal_matches_spec (digestFn : List Nat → List Nat)
    (fs : StagingFS) (resp : Option Response)
    (resolved_path digest_header_name : String) (content_type_name : List Char)
    (build_id : Nat) :
    (downloadInternal digestFn fs resp resolved_path digest_header_name
        content_type_name build_id).1 = specClassify resp content_type_name fs ∧
    (∀ r, resp = some r → r.status = 304 →
      (downloadInternal digestFn fs resp resolved_path digest_header_name
          content_type_name build_id).2.1 = fs.staged) ∧
    (∀ r, resp = some r → r.status ≠ 304 →
      (downloadInternal digestFn fs resp resolved_path digest_header_name
          content_type_name build_id).1 = DownloadResult.Success →
      (downloadInternal digestFn fs resp resolved_path digest_header_name
          content_type_name build_id).2.1 = some r.body) := by
  refine ⟨?_, ?_, ?_⟩
  · rcases resp with _ | r
    · rfl
    · by_cases h1 : r.status = 304
      · simp [downloadInternal, specClassify, h1]
      by_cases h2 : r.status = 301
      · simp [downloadInternal, specClassify, h1, h2]
      by_cases h3 : r.status = 404
      · simp [downloadInternal, specClassify, h1, h2, h3]
      by_cases h4 : r.status = 406
      · simp [downloadInternal, specClassify, h1, h2, h3, h4]
      by_cases h5 : r.status = 200
      swap
      · simp [downloadInternal, specClassify, h1, h2, h3, h4, h5]
      rcases hcth : r.contentTypeHeader with _ | ct
      · simp [downloadInternal, specClassify, specContentTypeOk, h1, h2, h3, h4, h5, hcth]
      cases hct : containsSubstring content_type_name ct
      · simp [downloadInternal, specClassify, specContentTypeOk, h1, h2, h3, h4, h5, hcth,
          hct]
      cases hopen : fs.openOk
      · simp [downloadInternal, specClassify, specContentTypeOk, specWriteOk, h1, h2, h3,
          h4, h5, hcth, hct, hopen]
      cases hres : fs.resizeOk
      · simp [downloadInternal, specClassify, specContentTypeOk, specWriteOk, h1, h2, h3,
          h4, h5, hcth, hct, hopen, hres]
      by_cases hw : fs.writeCount = r.body.length
      · simp [downloadInternal, specClassify, specContentTypeOk, specWriteOk, h1, h2, h3,
          h4, h5, hcth, hct, hopen, hres, hw]
      · simp [downloadInternal, specClassify, specContentTypeOk, specWriteOk, h1, h2, h3,
          h4, h5, hcth, hct, hopen, hres, hw]
  · intro r hr h304
    subst hr
    simp [downloadInternal, h304]
  · intro r hr h304 hsucc
    subst hr
    by_cases h2 : r.status = 301
    · simp [downloadInternal, h304, h2] at hsucc
    by_cases h3 : r.status = 404
    · simp [downloadInternal, h304, h2, h3] at hsucc
    by_cases h4 : r.status = 406
    · simp [downloadInternal, h304, h2, h3, h4] at hsucc
    by_cases h5 : r.status = 200
    swap
    · simp [downloadInternal, h304, h2, h3, h4, h5] at hsucc
    rcases hcth : r.contentTypeHeader with _ | ct
    · simp [downloadInternal, h304, h2, h3, h4, h5, hcth] at hsucc
    cases hct : containsSubstring content_type_name ct
    · simp [downloadInternal, h304, h2, h3, h4, h5, hcth, hct] at hsucc
    cases hopen : fs.openOk
    · simp [downloadInternal, h304, h2, h3, h4, h5, hcth, hct, hopen] at hsucc
    cases hres : fs.resizeOk
    · simp [downloadInternal, h304, h2, h3, h4, h5, hcth, hct, hopen, hres] at hsucc
    by_cases hw : fs.writeCount = r.body.length
    · simp [downloadInternal, h304, h2, h3, h4, h5, hcth, hct, hopen, hres, hw]
    · simp [downloadInternal, h304, h2, h3, h4, h5, hcth, hct, hopen, hres, hw] at hsucc

/-- C1 witness: a 304 response leaves the prior staged bytes in place, and a
matching 200 response ends with the body staged. -/
theorem downloadInternal_matches_spec_witness :
    (downloadInternal (fun _ => []) ⟨some [1], true, true, 0⟩ (some ⟨304, none, []⟩)
        "p" "d" [] 0).2.1 = some [1] ∧
    (downloadInternal (fun _ => []) ⟨none, true, true, 2⟩
        (some ⟨200, some "application/zip".toList, [7, 7]⟩)
        "p" "d" "application/zip".toList 0).2.1 = some [7, 7] :=
  ⟨(downloadInternal_matches_spec _ _ _ _ _ _ _).2.1 _ rfl rfl,
   (downloadInternal_matches_spec _ _ _ _ _ _ _).2.2 _ rfl (by decide) (by decide)⟩

/-- C4: for both operations of the Transfer Client, a staged file at the
target path makes the fetch carry the operation-specific digest header with
the hex digest of the file's bytes, and with no staged file no digest header
is attached. -/
theorem digest_header_iff_staged (digestFn : List Nat → List Nat) (fs : StagingFS)
    (resp : Option Response) (title_id build_id : Nat) :
    (fs.staged = none → ∀ v,
      ("Boxcat-Data-Digest", v) ∉
        (downloadDataZip digestFn fs resp title_id build_id).2.2.headers ∧
      ("Boxcat-LaunchParam-Digest", v) ∉
        (downloadLaunchParam digestFn fs resp title_id build_id).2.2.headers) ∧
    (∀ bytes, fs.staged = some bytes →
      ("Boxcat-Data-Digest", hexArrayToString (digestFn bytes) false) ∈
        (downloadDataZip digestFn fs resp title_id build_id).2.2.headers ∧
      ("Boxcat-LaunchParam-Digest", hexArrayToString (digestFn bytes) false) ∈
        (downloadLaunchParam digestFn fs resp title_id build_id).2.2.headers) := by
  constructor
  · intro h v
    rw [downloadDataZip, downloadLaunchParam, downloadInternal_request,
      downloadInternal_request, h]
    constructor <;> simp [buildHeaders, digestHeader]
  · intro bytes h
    rw [downloadDataZip, downloadLaunchParam, downloadInternal_request,
      downloadInternal_request, h]
    constructor <;> simp [buildHeaders, digestHeader]

/-- C4 witness: the digest header is absent with no staged file and present
with one. -/
theorem digest_header_iff_staged_witness :
    ("Boxcat-Data-Digest", "x") ∉
      (downloadDataZip (fun _ => [0]) ⟨none, true, true, 0⟩ none 0 0).2.2.headers ∧
    ("Boxcat-Data-Digest", hexArrayToString [0] false) ∈
      (downloadDataZip (fun _ => [0]) ⟨some [1], true, true, 0⟩ none 0 0).2.2.headers :=
  ⟨((digest_header_iff_staged _ _ _ _ _).1 rfl "x").1,
   ((digest_header_iff_staged _ _ _ _ _).2 [1] rfl).1⟩

theorem hexDigitsRevFuel_length_le (fuel : Nat) :
    ∀ n, (hexDigitsRevFuel fuel n).length ≤ fuel := by
  induction fuel with
  | zero => intro n; simp [hexDigitsRevFuel]
  | succ f ih =>
    intro n
    unfold hexDigitsRevFuel
    split
    · simp
    · simpa using Nat.succ_le_succ (ih (n / 16))

theorem hexDigitsRevFuel_lt (fuel : Nat) :
    ∀ n d, d ∈ hexDigitsRevFuel fuel n → d < 16 := by
  induction fuel with
  | zero => intro n d h; simp [hexDigitsRevFuel] at h
  | succ f ih =>
    intro n d h
    unfold hexDigitsRevFuel at h
    split at h
    · simp at h
    · rcases List.mem_cons.mp h with h | h
      · subst h; exact Nat.mod_lt _ (by norm_num)
      · exact ih _ _ h

theorem valRev_hexDigitsRevFuel (fuel : Nat) :
    ∀ n, n < 16 ^ fuel → valRev (hexDigitsRevFuel fuel n) = n := by
  induction fuel with
  | zero =>
    intro n h
    simp only [pow_zero, Nat.lt_one_iff] at h
    subst h
    rfl
  | succ f ih =>
    intro n h
    unfold hexDigitsRevFuel
    split
    · next h0 => simp [valRev, h0]
    · next h0 =>
      have hdiv : n / 16 < 16 ^ f := by
        rw [Nat.div_lt_iff_lt_mul (by norm_num : (0 : Nat) < 16)]
        calc n < 16 ^ (f + 1) := h
          _ = 16 ^ f * 16 := by ring
      simp only [valRev, ih _ hdiv]
      exact Nat.mod_add_div n 16

theorem foldl_digits_reverse (l : List Nat) :
    ∀ acc : Nat, l.reverse.foldl (fun a d => 16 * a + d) acc =
      acc * 16 ^ l.length + valRev l := by
  induction l with
  | nil => intro acc; simp [valRev]
  | cons d ds ih =>
    intro acc
    simp [List.reverse_cons, List.foldl_append, ih, valRev, pow_succ]
    ring

theorem foldl_hex_replicate_zero (k : Nat) :
    List.foldl (fun a c => 16 * a + hexCharVal c) 0 (List.replicate k '0') = 0 := by
  have h0 : hexCharVal '0' = 0 := by decide
  induction k with
  | zero => rfl
  | succ m ih => simpa [List.replicate_succ, h0] using ih

theorem hexCharVal_hexUpperDigit (d : Nat) (h : d < 16) :
    hexCharVal (hexUpperDigit d) = d := by
  interval_cases d <;> decide

theorem isUpperHexChar_hexUpperDigit (d : Nat) (h : d < 16) :
    isUpperHexChar (hexUpperDigit d) = true := by
  interval_cases d <;> decide

theorem foldl_hexCharVal_map (l : List Nat) (hl : ∀ d ∈ l, d < 16) :
    ∀ acc, (l.map hexUpperDigit).foldl (fun a c => 16 * a + hexCharVal c) acc =
      l.foldl (fun a d => 16 * a + d) acc := by
  induction l with
  | nil => intro acc; rfl
  | cons d ds ih =>
    intro acc
    simp only [List.map_cons, List.foldl_cons]
    rw [hexCharVal_hexUpperDigit d (hl d (by simp))]
    exact ih (fun x hx => hl x (by simp [hx])) _

theorem fmtHex16_length (n : Nat) : (fmtHex16 n).length = 16 := by
  unfold fmtHex16
  dsimp only
  split
  · rfl
  · have hle : (hexDigitsRevFuel 16 (n % 2 ^ 64)).length ≤ 16 :=
      hexDigitsRevFuel_length_le 16 (n % 2 ^ 64)
    simp only [String.length, List.length_append, List.length_replicate,
      List.length_map, List.length_reverse]
    omega

theorem fmtHex16_all_upperHex (n : Nat) :
    (fmtHex16 n).data.all isUpperHexChar = true := by
  unfold fmtHex16
  dsimp only
  split
  · decide
  · rw [List.all_eq_true]
    intro c hc
    rw [List.mem_append] at hc
    rcases hc with hc | hc
    · rw [List.eq_of_mem_replicate hc]; decide
    · rw [List.mem_map] at hc
      obtain ⟨d, hd, rfl⟩ := hc
      exact isUpperHexChar_hexUpperDigit d
        (hexDigitsRevFuel_lt 16 _ d (List.mem_reverse.mp hd))

theorem decodeHex_fmtHex16 (n : Nat) : decodeHex (fmtHex16 n) = n % 2 ^ 64 := by
  unfold decodeHex fmtHex16
  dsimp only
  split
  · next h0 => rw [h0]; decide
  · next h0 =>
    rw [List.foldl_append, foldl_hex_replicate_zero]
    rw [foldl_hexCharVal_map _
      (fun d hd => hexDigitsRevFuel_lt 16 _ d (List.mem_reverse.mp hd))]
    rw [foldl_digits_reverse]
    simp only [Nat.zero_mul, Nat.zero_add]
    have h2 : (16 : Nat) ^ 16 = 2 ^ 64 := by norm_num
    exact valRev_hexDigitsRevFuel 16 _ (by rw [h2]; exact Nat.mod_lt _ (by positivity))

/-- C8: for every title and build identifier, the title-id segment of both
request path templates and the value of the Boxcat-Build-Id header are
exactly 16 uppercase hexadecimal characters whose value is the identifier
reduced to 64 bits, hence left-zero-padded. -/
theorem request_hex_format (digestFn : List Nat → List Nat) (fs : StagingFS)
    (resp : Option Response) (title_id build_id : Nat) :
    ∃ s t : String,
      (downloadDataZip digestFn fs resp title_id build_id).2.2.path =
        "/boxcat/titles/" ++ s ++ "/data" ∧
      (downloadLaunchParam digestFn fs resp title_id build_id).2.2.path =
        "/boxcat/titles/" ++ s ++ "/launchparam" ∧
      ("Boxcat-Build-Id", t) ∈
        (downloadDataZip digestFn fs resp title_id build_id).2.2.headers ∧
      s.length = 16 ∧ s.data.all isUpperHexChar = true ∧
      decodeHex s = title_id % 2 ^ 64 ∧
      t.length = 16 ∧ t.data.all isUpperHexChar = true ∧
      decodeHex t = build_id % 2 ^ 64 := by
  refine ⟨fmtHex16 title_id, fmtHex16 build_id, ?_, ?_, ?_, fmtHex16_length _,
    fmtHex16_all_upperHex _, decodeHex_fmtHex16 _, fmtHex16_length _,
    fmtHex16_all_upperHex _, decodeHex_fmtHex16 _⟩
  · rw [downloadDataZip, downloadInternal_request]; rfl
  · rw [downloadLaunchParam, downloadInternal_request]; rfl
  · rw [downloadDataZip, downloadInternal_request]
    simp [buildHeaders]

theorem statusBody_result (json : Json) (out : StatusOut)
    (h : statusBody json = Except.ok out) :
    out.result = StatusResult.Offline ∨ out.result = StatusResult.Success := by
  unfold statusBody at h
  split at h
  · simp at h
  · split at h
    · simp at h
    · split at h
      · left
        simp only [Except.ok.injEq] at h
        rw [← h]
      · split at h
        · simp at h
        · split at h
          · simp at h
          · split at h
            · simp at h
            · split at h
              · simp at h
              · right
                simp only [Except.ok.injEq] at h
                rw [← h]

theorem parseGameLoopBody_mkGameEntry (acc : List (String × EventStatus))
    (name : String) (header footer events : Json) :
    parseGameLoopBody acc (mkGameEntry name header footer events) =
      Except.ok (insertOrAssign acc name
        ⟨guardedOptString header, guardedOptString footer, guardedEvents events⟩) := rfl

theorem foldGames_mkStatus (gs : List (String × Json × Json × Json)) :
    ∀ acc, foldGames acc (gs.map fun g => mkGameEntry g.1 g.2.1 g.2.2.1 g.2.2.2) =
      Except.ok (gs.foldl
        (fun acc g => insertOrAssign acc g.1
          ⟨guardedOptString g.2.1, guardedOptString g.2.2.1, guardedEvents g.2.2.2⟩)
        acc) := by
  induction gs with
  | nil => intro acc; rfl
  | cons g rest ih =>
    intro acc
    rcases g with ⟨name, header, footer, events⟩
    simp only [List.map_cons, List.foldl_cons, foldGames, parseGameLoopBody_mkGameEntry]
    exact ih _

theorem index_mkStatusJson_online (online : Bool) (global : Option String)
    (gs : List (String × Json × Json × Json)) :
    Json.index (mkStatusJson online global gs) "online" = Except.ok (Json.bool online) := rfl

theorem index_mkStatusJson_global (online : Bool) (global : Option String)
    (gs : List (String × Json × Json × Json)) :
    Json.index (mkStatusJson online global gs) "global" =
      Except.ok (match global with | none => Json.null | some s => Json.str s) := rfl

theorem index_mkStatusJson_games (online : Bool) (global : Option String)
    (gs : List (String × Json × Json × Json)) :
    Json.index (mkStatusJson online global gs) "games" =
      Except.ok (Json.arr (gs.map fun g => mkGameEntry g.1 g.2.1 g.2.2.1 g.2.2.2)) := rfl

theorem statusBody_mkStatusJson (online : Bool) (global : Option String)
    (gs : List (String × Json × Json × Json)) :
    statusBody (mkStatusJson online global gs) =
      Except.ok
        (if online then ⟨StatusResult.Success, some global, expectedGames gs⟩
         else ⟨StatusResult.Offline, none, []⟩) := by
  have hf := foldGames_mkStatus gs []
  cases online <;> cases global <;>
    simp [statusBody, index_mkStatusJson_online, index_mkStatusJson_global,
      index_mkStatusJson_games, Json.getBool, Json.getString, Json.isNull, hf,
      expectedGames]

/-- C6 counterexample: a response body that parses as JSON but carries a
non-boolean online member makes GetStatus raise an uncaught json type error:
this top-level shape surprise is neither tolerated nor reported as
ParseError. -/
theorem getStatus_typeError_not_tolerated :
    getStatus (some ⟨200, some (Json.obj [("online", Json.num 1)])⟩) =
      GSOutcome.typeError := rfl

/-- C6 amended: a JSON parse failure, and only a JSON parse failure, yields
ParseError.  A missing global or games member is tolerated, and for a named
games entry whose header, footer and events members are all present,
non-string header/footer values, a non-array events value and non-string
entries inside an events array are tolerated as absent or empty.  But a
missing or non-boolean online member, a non-null non-string global, or a
non-string name raises an uncaught type error, and a named games entry
lacking a header, footer or events member hits the json library's const
bracket assertion (undefined behavior), instead of being tolerated. -/
theorem getStatus_parse_and_tolerance (resp : StatusResp) (out : StatusOut)
    (online : Bool) (global : Option String)
    (games : List (String × Json × Json × Json)) :
    (resp.status ≠ 301 → resp.body = none →
      getStatus (some resp) = GSOutcome.ret ⟨StatusResult.ParseError, none, []⟩) ∧
    (getStatus (some resp) = GSOutcome.ret out →
      out.result = StatusResult.ParseError →
      resp.status ≠ 301 ∧ resp.body = none) ∧
    (getStatus (some ⟨200, some (mkStatusJson online global games)⟩) =
      GSOutcome.ret
        (if online then ⟨StatusResult.Success, some global, expectedGames games⟩
         else ⟨StatusResult.Offline, none, []⟩)) ∧
    getStatus (some ⟨200, some (Json.obj [("online", Json.bool true)])⟩) =
      GSOutcome.ret ⟨StatusResult.Success, some none, []⟩ ∧
    getStatus (some ⟨200, some (Json.obj
      [("online", Json.bool true), ("global", Json.null),
       ("games", Json.arr [Json.obj
         [("name", Json.str "G1"),
          ("events", Json.arr [Json.str "e1", Json.str "e2"])]])])⟩) =
      GSOutcome.assertFail := by
  refine ⟨?_, ?_, ?_, rfl, rfl⟩
  · intro h301 hbody
    simp [getStatus, h301, hbody]
  · intro hret hpe
    by_cases h301 : resp.status = 301
    · simp [getStatus, h301] at hret
      subst hret
      simp at hpe
    · rcases hbody : resp.body with _ | j
      · exact ⟨h301, rfl⟩
      · cases hsb : statusBody j with
        | error e => cases e <;> simp [getStatus, h301, hbody, hsb] at hret
        | ok o =>
          simp [getStatus, h301, hbody, hsb] at hret
          subst hret
          rcases statusBody_result j o hsb with h | h <;> simp [hpe] at h
  · cases online <;> simp [getStatus, statusBody_mkStatusJson]

/-- C6 witness: a non-301 response whose body fails to parse yields exactly
ParseError, and a ParseError return implies a parse failure. -/
theorem getStatus_parse_and_tolerance_witness :
    getStatus (some ⟨200, none⟩) =
      GSOutcome.ret ⟨StatusResult.ParseError, none, []⟩ ∧
    ((⟨200, none⟩ : StatusResp).status ≠ 301 ∧
      (⟨200, none⟩ : StatusResp).body = none) :=
  ⟨(getStatus_parse_and_tolerance ⟨200, none⟩ ⟨StatusResult.ParseError, none, []⟩
      true none []).1 (by decide) rfl,
   (getStatus_parse_and_tolerance ⟨200, none⟩ ⟨StatusResult.ParseError, none, []⟩
      true none []).2.1 rfl rfl⟩

end Boxcat
